import Mathlib

/-!
# OctoPrint-Uptime: verification of the duration formatter, uptime resolver,
# settings sanitizer and API assembly

Shallow embedding of the relevant code of the repository `Ajimaru/OctoPrint-Uptime`.
Two Python modules contain near-duplicate implementations:

* `src/octoprint_uptime/plugin.py`   — the "plugin" variant (tagged resolver,
  narrowed `except` tuples);
* `src/octoprint_uptime/__init__.py` — the "init" variant (untagged resolver,
  bare `except Exception` handlers, an extra `uptime -s` command strategy).

Python machine-level values are embedded as follows: `float` becomes `PyFloat`,
an exact fraction `num / den` kept unnormalised so that all arithmetic is
kernel-computable; untyped Python values become `PyVal`; exceptions become the
enumeration `PyExc`, and code that may raise returns `Except PyExc _`.
-/

namespace OctoPrintUptime

/-- The Python exception classes that occur in the embedded code paths. -/
inductive PyExc where
  | valueError
  | typeError
  | osError
  | indexError
  | attributeError
  | runtimeError
  | keyError
  | importError
  deriving DecidableEq, Repr

/-- Embedding of a Python `float`: an exact fraction `num / den`.
`den` is positive for every value the embedded code constructs (literals have
`den = 1`, parsed decimals have `den = 10 ^ k`, arithmetic multiplies
denominators).  Kept unnormalised so that every operation reduces in the
kernel. -/
structure PyFloat where
  num : Int
  den : Nat
  deriving DecidableEq, Repr

/-- Embed an integer as a Python float. -/
def PyFloat.ofInt (i : Int) : PyFloat := ⟨i, 1⟩

/-- Embed a natural number as a Python float. -/
def PyFloat.ofNat (n : Nat) : PyFloat := ⟨(n : Int), 1⟩

/-- Python `a - b` on floats. -/
def PyFloat.sub (a b : PyFloat) : PyFloat :=
  ⟨a.num * (b.den : Int) - b.num * (a.den : Int), a.den * b.den⟩

/-- Python `a <= b` on floats (denominators are positive by construction). -/
def PyFloat.le (a b : PyFloat) : Prop :=
  a.num * (b.den : Int) ≤ b.num * (a.den : Int)

/-- Python `a < b` on floats (denominators are positive by construction). -/
def PyFloat.lt (a b : PyFloat) : Prop :=
  a.num * (b.den : Int) < b.num * (a.den : Int)

instance (a b : PyFloat) : Decidable (PyFloat.le a b) := by
  unfold PyFloat.le; infer_instance

instance (a b : PyFloat) : Decidable (PyFloat.lt a b) := by
  unfold PyFloat.lt; infer_instance

/-- Python `int(x)` on a float: truncation toward zero. -/
def PyFloat.trunc (a : PyFloat) : Int := a.num.tdiv (a.den : Int)

/-- Embedding of an untyped Python value, as far as the plugin's settings and
API code manipulates them. -/
inductive PyVal where
  | vNone
  | vBool (b : Bool)
  | vInt (i : Int)
  | vFloat (q : PyFloat)
  | vStr (s : String)
  | vList (xs : List PyVal)
  | vDict (entries : List (String × PyVal))
  deriving Repr

open PyVal

/-- Python `d.get(k)` / `k in d` lookup on a dict.  CPython dicts have unique
keys; the embedding looks up the first matching entry. -/
def dictGet (entries : List (String × PyVal)) (k : String) : Option PyVal :=
  match entries with
  | [] => Option.none
  | (k', v) :: rest => if k' = k then some v else dictGet rest k

/-- Python `d[k] = v` on a dict: update the existing entry in place (CPython
preserves insertion order), append when the key is absent. -/
def dictSet (entries : List (String × PyVal)) (k : String) (v : PyVal) :
    List (String × PyVal) :=
  match entries with
  | [] => [(k, v)]
  | (k', v') :: rest =>
    if k' = k then (k, v) :: rest else (k', v') :: dictSet rest k v

/-- Python truthiness `bool(x)` for the embedded value types.  Containers are
truthy exactly when non-empty. -/
def pyBool : PyVal → Bool
  | vNone => false
  | vBool b => b
  | vInt i => i ≠ 0
  | vFloat q => q.num ≠ 0
  | vStr s => s ≠ ""
  | vList xs => !xs.isEmpty
  | vDict es => !es.isEmpty

/-- Helper for `pyInt` on strings: the value of a non-empty all-digit string. -/
def digitsToNat (cs : List Char) : Option Nat :=
  if cs ≠ [] ∧ cs.all Char.isDigit then
    some (cs.foldl (fun acc c => acc * 10 + (c.toNat - '0'.toNat)) 0)
  else Option.none

/-- Python `int(s)` on a string: an optional sign followed by digits parses,
anything else raises `ValueError`.  (CPython additionally tolerates
surrounding whitespace and `_` digit separators; none of the embedded claims
depends on those inputs.) -/
def pyIntOfStr (s : String) : Except PyExc Int :=
  match s.data with
  | '-' :: rest =>
    match digitsToNat rest with
    | some n => .ok (-(n : Int))
    | Option.none => .error .valueError
  | '+' :: rest =>
    match digitsToNat rest with
    | some n => .ok (n : Int)
    | Option.none => .error .valueError
  | cs =>
    match digitsToNat cs with
    | some n => .ok (n : Int)
    | Option.none => .error .valueError

/-- Python `int(x)`: identity on ints, `True/False` to `1/0`, truncation on
floats, literal parse on strings (`ValueError` on failure), `TypeError` on
`None` and containers. -/
def pyInt : PyVal → Except PyExc Int
  | vNone => .error .typeError
  | vBool b => .ok (if b then 1 else 0)
  | vInt i => .ok i
  | vFloat q => .ok q.trunc
  | vStr s => pyIntOfStr s
  | vList _ => .error .typeError
  | vDict _ => .error .typeError

/-- Python `str(x)`.  Faithful on `None`, bools, ints and strings — the cases
the API settings code can meet.  The textual rendering of floats and
containers is abbreviated here; no claim depends on it, only on the result
being a string. -/
def pyStr : PyVal → String
  | vNone => "None"
  | vBool b => if b then "True" else "False"
  | vInt i => toString i
  | vFloat q => toString q.num ++ "/" ++ toString q.den
  | vStr s => s
  | vList _ => "[...]"
  | vDict _ => "{...}"

/-! ## Duration formatter

`plugin.py` lines 75–157 (`format_uptime`, `format_uptime_dhm`,
`format_uptime_dh`, `format_uptime_d`) and `__init__.py` lines 80–149
(`_format_uptime`).  Python `//` and `%` on a positive divisor coincide with
`Int.ediv` / `Int.emod`, which is what `/` and `%` denote on `Int` here. -/

/-- Python `" ".join(parts)`. -/
def joinSpace : List String → String
  | [] => ""
  | [x] => x
  | x :: xs => x ++ " " ++ joinSpace xs

/-- `plugin.py` `format_uptime`: full `d/h/m/s` rendering.  The seconds
component is appended unconditionally. -/
def format_uptime (seconds : PyFloat) : String :=
  let s : Int := seconds.trunc
  let days := s / 86400
  let hours := s % 86400 / 3600
  let minutes := s % 3600 / 60
  let secs := s % 60
  joinSpace
    (((if days ≠ 0 then [toString days ++ "d"] else []) ++
      (if hours ≠ 0 ∨ days ≠ 0 then [toString hours ++ "h"] else []) ++
      (if minutes ≠ 0 ∨ hours ≠ 0 ∨ days ≠ 0 then [toString minutes ++ "m"] else [])) ++
     [toString secs ++ "s"])

/-- `plugin.py` `format_uptime_dhm`. -/
def format_uptime_dhm (seconds : PyFloat) : String :=
  let s : Int := seconds.trunc
  let days := s / 86400
  let rem1 := s - days * 86400
  let hours := rem1 / 3600
  let rem2 := rem1 - hours * 3600
  let minutes := rem2 / 60
  if days ≠ 0 then
    toString days ++ "d " ++ toString hours ++ "h " ++ toString minutes ++ "m"
  else
    toString hours ++ "h " ++ toString minutes ++ "m"

/-- `plugin.py` `format_uptime_dh`. -/
def format_uptime_dh (seconds : PyFloat) : String :=
  let s : Int := seconds.trunc
  let days := s / 86400
  let rem1 := s - days * 86400
  let hours := rem1 / 3600
  if days ≠ 0 then
    toString days ++ "d " ++ toString hours ++ "h"
  else
    toString hours ++ "h"

/-- `plugin.py` `format_uptime_d`. -/
def format_uptime_d (seconds : PyFloat) : String :=
  let s : Int := seconds.trunc
  let days := s / 86400
  toString days ++ "d"

/-- `__init__.py` `_format_uptime`: same decomposition, but the seconds
component is appended only when non-zero or when no other component was
added (`if secs or not parts`). -/
def init_format_uptime (seconds : PyFloat) : String :=
  let s : Int := seconds.trunc
  let days := s / 86400
  let rem1 := s - days * 86400
  let hours := rem1 / 3600
  let rem2 := rem1 - hours * 3600
  let minutes := rem2 / 60
  let secs := rem2 - minutes * 60
  let parts : List String :=
    (if days ≠ 0 then [toString days ++ "d"] else []) ++
    (if hours ≠ 0 ∨ days ≠ 0 then [toString hours ++ "h"] else []) ++
    (if minutes ≠ 0 ∨ hours ≠ 0 ∨ days ≠ 0 then [toString minutes ++ "m"] else [])
  joinSpace (if secs ≠ 0 ∨ parts = [] then parts ++ [toString secs ++ "s"] else parts)

/-- The full-format rule exactly as the claim states it (spec side, for the
refinement comparison): decompose by `86400/3600/60`; emit days only if
positive; hours if positive or days emitted; minutes if positive or an
hour/day component emitted; seconds unless zero and another component was
already emitted; join with single spaces in descending order. -/
def formatFullSpec (s : Int) : String :=
  let days := s / 86400
  let hours := s % 86400 / 3600
  let minutes := s % 3600 / 60
  let secs := s % 60
  let emitD := 0 < days
  let emitH := 0 < hours ∨ emitD
  let emitM := 0 < minutes ∨ emitH
  let emitS := ¬(secs = 0 ∧ (emitD ∨ emitH ∨ emitM))
  joinSpace
    ((if emitD then [toString days ++ "d"] else []) ++
     (if emitH then [toString hours ++ "h"] else []) ++
     (if emitM then [toString minutes ++ "m"] else []) ++
     (if emitS then [toString secs ++ "s"] else []))

/-- Variant of the spec-side rule in which the seconds component is always
emitted (what `plugin.py`'s `format_uptime` actually implements). -/
def formatFullAllSpec (s : Int) : String :=
  let days := s / 86400
  let hours := s % 86400 / 3600
  let minutes := s % 3600 / 60
  let secs := s % 60
  let emitD := 0 < days
  let emitH := 0 < hours ∨ emitD
  let emitM := 0 < minutes ∨ emitH
  joinSpace
    ((if emitD then [toString days ++ "d"] else []) ++
     (if emitH then [toString hours ++ "h"] else []) ++
     (if emitM then [toString minutes ++ "m"] else []) ++
     [toString secs ++ "s"])

/-! ## Uptime source resolver

`plugin.py` lines 264–307 (`_get_uptime_seconds`, `_get_uptime_from_proc`,
`_get_uptime_from_psutil`) and `__init__.py` lines 198–225
(`_get_uptime_seconds` with the additional `uptime -s` command strategy).
The virtual file `/proc/uptime` is modelled by its content: `Option.none`
stands for "missing or unreadable" (`os.path.exists` false, or `open`
raising `OSError`, which the code catches). -/

/-- Recursive worker for `pySplitWs`: accumulate the current token
(in reverse) and cut at whitespace, dropping empty tokens. -/
def splitWsAux : List Char → List Char → List String
  | [], acc => if acc.isEmpty then [] else [⟨acc.reverse⟩]
  | c :: rest, acc =>
    if c.isWhitespace then
      (if acc.isEmpty then [] else [⟨acc.reverse⟩]) ++ splitWsAux rest []
    else splitWsAux rest (c :: acc)

/-- Python `s.split()` with no separator: split on whitespace runs, dropping
empty tokens. -/
def pySplitWs (s : String) : List String := splitWsAux s.data []

/-- Python `f.readline()` restricted to what the subsequent whitespace-split
observes: the first line of the content (the trailing `'\n'` that `readline`
keeps is whitespace and would be discarded by `split()` anyway). -/
def firstLine (s : String) : String := ⟨s.data.takeWhile (· ≠ '\n')⟩

/-- Numeric value of a digit list (no validation; callers check digits). -/
def digitsVal (cs : List Char) : Nat :=
  cs.foldl (fun acc c => acc * 10 + (c.toNat - '0'.toNat)) 0

/-- Python `float(s)` on the decimal fragment the uptime sources can produce:
optional sign, digits, optional `'.'` and fraction digits, at least one digit
overall.  `Option.none` is CPython's `ValueError`.  (CPython additionally
accepts exponents, `inf`/`nan` and surrounding whitespace; no claim depends
on those inputs.) -/
def pyFloatOfStr (s : String) : Option PyFloat :=
  let mag : List Char → Option PyFloat := fun cs =>
    let intPart := cs.takeWhile Char.isDigit
    let rest := cs.dropWhile Char.isDigit
    match rest with
    | [] => if intPart.isEmpty then Option.none else some ⟨(digitsVal intPart : Int), 1⟩
    | '.' :: frac =>
      if frac.all Char.isDigit && !(intPart.isEmpty && frac.isEmpty) then
        some ⟨(digitsVal intPart * 10 ^ frac.length + digitsVal frac : Int), 10 ^ frac.length⟩
      else Option.none
    | _ => Option.none
  match s.data with
  | '-' :: rest => (mag rest).map (fun q => ⟨-q.num, q.den⟩)
  | '+' :: rest => mag rest
  | cs => mag cs

/-- The `float(f.readline().split()[0])` step on the token list of the first
line: `[0]` on an empty list raises `IndexError` (which the plugin variant's
`except (ValueError, TypeError, OSError)` does *not* catch), a `float()`
failure raises `ValueError` (caught, yielding `None`). -/
def parseProcToken : List String → Except PyExc (Option PyFloat)
  | [] => .error PyExc.indexError
  | tok :: _ =>
    match pyFloatOfStr tok with
    | some q => .ok (some q)
    | Option.none => .ok Option.none

/-- `plugin.py` `_get_uptime_from_proc`: parse the first whitespace token of
the first line as a float. -/
def get_uptime_from_proc : Option String → Except PyExc (Option PyFloat)
  | Option.none => .ok Option.none
  | some content => parseProcToken (pySplitWs (firstLine content))

/-- `__init__.py`'s proc-file step: the same read-and-parse code, but wrapped
in a bare `except Exception: pass`, so every failure (including the
`IndexError`) falls through to `None`. -/
def init_uptime_from_proc (file : Option String) : Option PyFloat :=
  match get_uptime_from_proc file with
  | .ok r => r
  | .error _ => Option.none

/-- Outcome of the psutil library for one call: import failure, an exception
from `boot_time()`, or a boot-time value. -/
inductive PsutilOutcome where
  | unavailable
  | raises (e : PyExc)
  | boots (boot : PyFloat)

/-- The `except (AttributeError, TypeError, ValueError, OSError)` tuple of
`plugin.py`'s `_get_uptime_from_psutil`. -/
def psutilHandled : PyExc → Bool
  | .attributeError | .typeError | .valueError | .osError => true
  | _ => false

/-- The plausibility bound `10 * 365 * 24 * 3600` seconds. -/
def tenYears : Int := 10 * 365 * 24 * 3600

/-- `plugin.py` `_get_uptime_from_psutil`: `now - boot_time`, accepted only
when `0 <= uptime < 10 * 365 * 24 * 3600` (the `isinstance` guard is always
true for float arithmetic).  Import failure yields `None`; a handled
exception yields `None`; an unhandled exception propagates. -/
def get_uptime_from_psutil (ps : PsutilOutcome) (now : PyFloat) :
    Except PyExc (Option PyFloat) :=
  match ps with
  | .unavailable => .ok Option.none
  | .raises e => if psutilHandled e then .ok Option.none else .error e
  | .boots boot =>
    let uptime := now.sub boot
    if (PyFloat.ofInt 0).le uptime ∧ uptime.lt (PyFloat.ofInt tenYears) then
      .ok (some uptime)
    else .ok Option.none

/-- `plugin.py` `_get_uptime_seconds`: proc file first, then psutil, and
`(None, "none")` when both fall through.  Exceptions the strategies do not
catch propagate to the caller. -/
def get_uptime_seconds (file : Option String) (ps : PsutilOutcome) (now : PyFloat) :
    Except PyExc (Option PyFloat × String) :=
  match get_uptime_from_proc file with
  | .error e => .error e
  | .ok (some u) => .ok (some u, "proc")
  | .ok Option.none =>
    match get_uptime_from_psutil ps now with
    | .error e => .error e
    | .ok (some u) => .ok (some u, "psutil")
    | .ok Option.none => .ok (Option.none, "none")

/-- Outcome of the external `uptime -s` command strategy of `__init__.py`:
any failure (missing binary, non-zero exit, decode or parse error) or a
parsed boot timestamp. -/
inductive CmdOutcome where
  | fails
  | boots (boot : PyFloat)

/-- `__init__.py` `_get_uptime_seconds`: proc file, then psutil (bare
`except Exception`, *no* plausibility bound on `now - boot_time`), then the
`uptime -s` command, and `0` when everything fails.  Every step is wrapped in
a bare `except`, so this variant never raises. -/
def init_get_uptime_seconds (file : Option String) (ps : PsutilOutcome)
    (cmd : CmdOutcome) (now : PyFloat) : PyFloat :=
  match init_uptime_from_proc file with
  | some u => u
  | Option.none =>
    match ps with
    | .boots boot => now.sub boot
    | _ =>
      match cmd with
      | .boots boot => now.sub boot
      | .fails => PyFloat.ofInt 0

/-! ## Settings sanitizer

`plugin.py` lines 435–456 (`_validate_and_sanitize_settings`) and the
identical block inlined in `__init__.py`'s `on_settings_save` (lines
293–322): both walk `data["plugins"]["octoprint_uptime"]`, and for each of
the two integer keys *that is present* replace `None`/unconvertible values by
the default and clamp converted values into `[1, 120]`. -/

/-- The clamp `max(1, min(val, 120))` (equivalently the `if val < 1 / if
val > 120` chain of the init variant). -/
def clampSetting (v : Int) : Int := max 1 (min v 120)

/-- The `try/except` body of the sanitizer loop: a present `None` raises
`ValueError` into the handler and an unconvertible value raises out of
`int(raw)`, both caught (`except (ValueError, TypeError)`) and replaced by
the default. -/
def sanitizedValue (raw : PyVal) (dflt : Int) : Int :=
  match raw with
  | vNone => dflt
  | _ =>
    match pyInt raw with
    | .ok i => i
    | .error _ => dflt

/-- One key of the sanitizer loop: keys not present are left untouched
(`if key in uptime_cfg`); present keys get the converted-or-default value,
clamped, written back in place. -/
def sanitizeKey (cfg : List (String × PyVal)) (key : String) (dflt : Int) :
    List (String × PyVal) :=
  match dictGet cfg key with
  | Option.none => cfg
  | some raw => dictSet cfg key (vInt (clampSetting (sanitizedValue raw dflt)))

/-- The sanitizer: a no-op unless the root is a dict whose `"plugins"` entry
is a dict whose `"octoprint_uptime"` entry is a dict; otherwise sanitize the
two integer keys of that block in place. -/
def validate_and_sanitize_settings (data : PyVal) : PyVal :=
  match data with
  | vDict entries =>
    match dictGet entries "plugins" with
    | some (vDict plugins) =>
      match dictGet plugins "octoprint_uptime" with
      | some (vDict cfg) =>
        let cfg1 := sanitizeKey cfg "debug_throttle_seconds" 60
        let cfg2 := sanitizeKey cfg1 "poll_interval_seconds" 5
        vDict (dictSet entries "plugins"
          (vDict (dictSet plugins "octoprint_uptime" (vDict cfg2))))
      | _ => data
    | _ => data
  | _ => data

/-- Convenience accessor for statements: the value stored under
`data["plugins"]["octoprint_uptime"][k]`, when that path exists. -/
def cfgField (data : PyVal) (k : String) : Option PyVal :=
  match data with
  | vDict entries =>
    match dictGet entries "plugins" with
    | some (vDict plugins) =>
      match dictGet plugins "octoprint_uptime" with
      | some (vDict cfg) => dictGet cfg k
      | _ => Option.none
    | _ => Option.none
  | _ => Option.none

/-! ## Permission gate of the API GET handler

`plugin.py` lines 698–747 (`_handle_permission_check`, `_abort_forbidden`)
and the gate at the top of `on_api_get` (lines 660–666).  The dynamic pieces
are modelled by their outcome: whether Flask is importable, what the
access-control predicate `_check_permissions` does, and what `flask.abort`
does. -/

/-- Outcome of the access-control predicate `self._check_permissions()`
(dynamically dispatched; the bundled placeholder always returns `True`, an
override may deny or raise). -/
inductive CheckOutcome where
  | allows
  | denies
  | raises (e : PyExc)

/-- Behaviour of the `flask.abort(403)` call inside `_abort_forbidden`:
either it raises the designed `HTTPException` (which the web layer renders as
HTTP 403) or it raises some other exception. -/
inductive AbortOutcome where
  | aborts
  | raises (e : PyExc)

/-- Result of the permission gate as seen by `on_api_get`. -/
inductive HandlerOutcome where
  | proceed
  | forbiddenMap (d : List (String × PyVal))
  | httpAbort403
  | raised (e : PyExc)

/-- The outer `except (AttributeError, TypeError, ValueError)` tuple of
`_handle_permission_check`. -/
def permHandled : PyExc → Bool
  | .attributeError | .typeError | .valueError => true
  | _ => false

/-- The inner `except (AttributeError, TypeError, ValueError, RuntimeError,
OSError)` tuple around the `_abort_forbidden()` calls. -/
def abortHandled : PyExc → Bool
  | .attributeError | .typeError | .valueError | .runtimeError | .osError => true
  | _ => false

/-- The fallback mapping `{"error": _("Forbidden"), "uptime_available": False}`. -/
def forbiddenFallback : List (String × PyVal) :=
  [("error", vStr "Forbidden"), ("uptime_available", vBool false)]

/-- `try: return self._abort_forbidden() except (...): return fallback`:
with Flask present, `flask.abort(403)` raises `HTTPException` — which is not
in the `except` tuple, so it escapes as the HTTP 403 abort; if `abort` raises
a handled exception instead, the fallback mapping is returned; without Flask
the function returns `{"error": _("Forbidden")}`. -/
def try_abort_forbidden (flaskAvailable : Bool) (ab : AbortOutcome) : HandlerOutcome :=
  if flaskAvailable then
    match ab with
    | .aborts => .httpAbort403
    | .raises e =>
      if abortHandled e then .forbiddenMap forbiddenFallback else .raised e
  else
    .forbiddenMap [("error", vStr "Forbidden")]

/-- `plugin.py` `_handle_permission_check`: grant → `None` (proceed); denial
→ the abort/fallback path; a handled exception from the predicate → the
abort/fallback path; an unhandled exception propagates. -/
def handle_permission_check (flaskAvailable : Bool) (check : CheckOutcome)
    (ab : AbortOutcome) : HandlerOutcome :=
  match check with
  | .allows => .proceed
  | .denies => try_abort_forbidden flaskAvailable ab
  | .raises e =>
    if permHandled e then try_abort_forbidden flaskAvailable ab else .raised e

/-- What `on_api_get` returns, abstracted to the gate decision: the uptime
payload is assembled only when the gate yields `None`. -/
inductive ApiGetResult where
  | payload
  | gate (h : HandlerOutcome)

/-- The gate at the top of `on_api_get`: any non-`None` result of
`_handle_permission_check` is returned as-is, the payload is built otherwise. -/
def on_api_get_gate (flaskAvailable : Bool) (check : CheckOutcome)
    (ab : AbortOutcome) : ApiGetResult :=
  match handle_permission_check flaskAvailable check ab with
  | .proceed => .payload
  | r => .gate r

/-! ## API settings reader

`plugin.py` lines 822–913 (`_get_api_settings`).  The settings store is
modelled by the outcome of `self._settings.get([key])` for each key. -/

/-- Outcome of one `self._settings.get([key])` call. -/
inductive GetOutcome where
  | val (v : PyVal)
  | raises (e : PyExc)

/-- The `except (AttributeError, TypeError, ValueError)` tuple used around
each of the three reads. -/
def settingsHandled : PyExc → Bool
  | .attributeError | .typeError | .valueError => true
  | _ => false

/-- The `navbar_enabled` read: default `True` on a handled exception or a
`None` value, otherwise Python truthiness. -/
def readNavbarEnabled (o : GetOutcome) : Except PyExc Bool :=
  match o with
  | .raises e => if settingsHandled e then .ok true else .error e
  | .val vNone => .ok true
  | .val v => .ok (pyBool v)

/-- The `display_format` read: default `"full"` on a handled exception or a
`None` value, otherwise `str(raw)`. -/
def readDisplayFormat (o : GetOutcome) : Except PyExc String :=
  match o with
  | .raises e => if settingsHandled e then .ok "full" else .error e
  | .val vNone => .ok "full"
  | .val v => .ok (pyStr v)

/-- Python `raw is None`. -/
def isNoneV : PyVal → Bool
  | vNone => true
  | _ => false

/-- Python `raw == ""`: true exactly for the empty string (`==` against a
string literal is `False` for every non-string value). -/
def isEmptyStr : PyVal → Bool
  | vStr s => s == ""
  | _ => false

/-- The `poll_interval_seconds` read: default `5` on a handled exception, a
`None` value, `""` or a failed `int(raw)`; then clamp into `[1, 120]`. -/
def readPollInterval (o : GetOutcome) : Except PyExc Int :=
  match o with
  | .raises e => if settingsHandled e then .ok 5 else .error e
  | .val v =>
    if isNoneV v || isEmptyStr v then .ok 5
    else
      let p : Int :=
        match pyInt v with
        | .ok n => n
        | .error _ => 5
      .ok (if p < 1 then 1 else if p > 120 then 120 else p)

/-- `plugin.py` `_get_api_settings`: the three reads in order; an unhandled
exception from any read propagates, otherwise the triple is returned. -/
def get_api_settings (store : String → GetOutcome) :
    Except PyExc (Bool × String × Int) :=
  match readNavbarEnabled (store "navbar_enabled") with
  | .error e => .error e
  | .ok nav =>
    match readDisplayFormat (store "display_format") with
    | .error e => .error e
    | .ok fmt =>
      match readPollInterval (store "poll_interval_seconds") with
      | .error e => .error e
      | .ok poll => .ok (nav, fmt, poll)

/-! ## Uptime info assembly

`plugin.py` lines 749–788 (`_get_uptime_info`).  The resolution result
(either from the tagged resolver or from a caller-supplied
`get_uptime_seconds` override) is an arbitrary Python value `res`. -/

/-- `isinstance(seconds, (int, float))` followed by `float(seconds)`:
numeric values (Python bools are ints) convert, everything else — including
`None` from a failed resolution — becomes `None`. -/
def toFloatVal : PyVal → Option PyFloat
  | vInt i => some (PyFloat.ofInt i)
  | vFloat q => some q
  | vBool b => some (PyFloat.ofInt (if b then 1 else 0))
  | _ => Option.none

/-- `_("unknown")`: gettext is the identity when no translation is loaded. -/
def unknownText : String := "unknown"

/-- `plugin.py` `_get_uptime_info`, normal path: numeric seconds are
formatted in the four granularities, otherwise seconds is `None` and all
four strings are the localized `"unknown"`. -/
def get_uptime_info (res : PyVal) :
    Option PyFloat × String × String × String × String :=
  match toFloatVal res with
  | Option.none => (Option.none, unknownText, unknownText, unknownText, unknownText)
  | some q =>
    (some q, format_uptime q, format_uptime_dhm q, format_uptime_dh q, format_uptime_d q)

/-- The `except (AttributeError, TypeError, ValueError)` fallback branch of
`_get_uptime_info`: seconds `None` and the four `"unknown"` strings. -/
def uptime_info_fallback : Option PyFloat × String × String × String × String :=
  (Option.none, unknownText, unknownText, unknownText, unknownText)

/-! ## Helper lemmas -/

theorem trunc_ofInt (i : Int) : (PyFloat.ofInt i).trunc = i := by
  simp [PyFloat.ofInt, PyFloat.trunc, Int.tdiv_one]

theorem toString_intCast (n : Nat) : toString ((n : Nat) : Int) = toString n := rfl

/-- `plugin.py`'s `format_uptime` implements the always-emit-seconds variant
of the spec rule on every non-negative duration. -/
theorem format_uptime_eq_spec (s : Int) (hs : 0 ≤ s) :
    format_uptime (PyFloat.ofInt s) = formatFullAllSpec s := by
  unfold format_uptime formatFullAllSpec
  rw [trunc_ofInt]
  dsimp only
  have pd : (0 < s / 86400) ↔ (s / 86400 ≠ 0) := by omega
  have ph : (0 < s % 86400 / 3600) ↔ (s % 86400 / 3600 ≠ 0) := by omega
  have pm : (0 < s % 3600 / 60) ↔ (s % 3600 / 60 ≠ 0) := by omega
  simp only [pd, ph, pm, List.append_assoc]

/-- `__init__.py`'s `_format_uptime` implements exactly the spec rule
(with seconds suppression) on every non-negative duration. -/
theorem init_format_uptime_eq_spec (s : Int) (hs : 0 ≤ s) :
    init_format_uptime (PyFloat.ofInt s) = formatFullSpec s := by
  unfold init_format_uptime formatFullSpec
  rw [trunc_ofInt]
  dsimp only
  have h2 : s - s / 86400 * 86400 = s % 86400 := by omega
  rw [h2]
  have h4 : s % 86400 - s % 86400 / 3600 * 3600 = s % 3600 := by omega
  rw [h4]
  have h6 : s % 3600 - s % 3600 / 60 * 60 = s % 60 := by omega
  rw [h6]
  have pd : (0 < s / 86400) ↔ (s / 86400 ≠ 0) := by omega
  have ph : (0 < s % 86400 / 3600) ↔ (s % 86400 / 3600 ≠ 0) := by omega
  have pm : (0 < s % 3600 / 60) ↔ (s % 3600 / 60 ≠ 0) := by omega
  simp only [pd, ph, pm]
  by_cases hD : s / 86400 = 0 <;> by_cases hH : s % 86400 / 3600 = 0 <;>
    by_cases hM : s % 3600 / 60 = 0 <;> by_cases hS : s % 60 = 0 <;>
    simp [hD, hH, hM, hS, joinSpace]

theorem dictGet_dictSet_self (l : List (String × PyVal)) (k : String) (v : PyVal) :
    dictGet (dictSet l k v) k = some v := by
  induction l with
  | nil => simp [dictSet, dictGet]
  | cons p rest ih =>
    obtain ⟨k', v'⟩ := p
    by_cases h : k' = k <;> simp [dictSet, dictGet, h, ih]

theorem dictGet_dictSet_ne (l : List (String × PyVal)) (k k' : String) (v : PyVal)
    (h : k' ≠ k) : dictGet (dictSet l k v) k' = dictGet l k' := by
  induction l with
  | nil => simp [dictSet, dictGet, Ne.symm h]
  | cons p rest ih =>
    obtain ⟨a, b⟩ := p
    by_cases ha : a = k
    · subst ha
      simp [dictSet, dictGet, Ne.symm h]
    · simp [dictSet, dictGet, ha, ih]

theorem dictSet_of_dictGet_eq (l : List (String × PyVal)) (k : String) (v : PyVal)
    (h : dictGet l k = some v) : dictSet l k v = l := by
  induction l with
  | nil => simp [dictGet] at h
  | cons p rest ih =>
    obtain ⟨a, b⟩ := p
    by_cases ha : a = k
    · subst ha
      simp [dictGet] at h
      simp [dictSet, h]
    · simp [dictGet, ha] at h
      simp [dictSet, ha, ih h]

theorem dictSet_dictSet (l : List (String × PyVal)) (k : String) (v w : PyVal) :
    dictSet (dictSet l k v) k w = dictSet l k w := by
  induction l with
  | nil => simp [dictSet]
  | cons p rest ih =>
    obtain ⟨a, b⟩ := p
    by_cases ha : a = k <;> simp [dictSet, ha, ih]

theorem clampSetting_mem (v : Int) : 1 ≤ clampSetting v ∧ clampSetting v ≤ 120 := by
  unfold clampSetting; omega

theorem clampSetting_fix (v : Int) (h1 : 1 ≤ v) (h2 : v ≤ 120) : clampSetting v = v := by
  unfold clampSetting; omega

theorem sanitizedValue_vInt (i : Int) (d : Int) : sanitizedValue (vInt i) d = i := rfl

theorem sanitizeKey_absent (cfg : List (String × PyVal)) (k : String) (d : Int)
    (h : dictGet cfg k = Option.none) : sanitizeKey cfg k d = cfg := by
  simp [sanitizeKey, h]

theorem sanitizeKey_present (cfg : List (String × PyVal)) (k : String) (d : Int)
    (raw : PyVal) (h : dictGet cfg k = some raw) :
    sanitizeKey cfg k d = dictSet cfg k (vInt (clampSetting (sanitizedValue raw d))) := by
  simp [sanitizeKey, h]

theorem dictGet_sanitizeKey_ne (cfg : List (String × PyVal)) (k k' : String) (d : Int)
    (h : k' ≠ k) : dictGet (sanitizeKey cfg k d) k' = dictGet cfg k' := by
  unfold sanitizeKey
  cases hg : dictGet cfg k with
  | none => rfl
  | some raw => exact dictGet_dictSet_ne _ _ _ _ h

theorem sanitizeKey_fix (cfg : List (String × PyVal)) (k : String) (d : Int)
    (h : ∀ raw, dictGet cfg k = some raw →
      raw = vInt (clampSetting (sanitizedValue raw d))) :
    sanitizeKey cfg k d = cfg := by
  cases hg : dictGet cfg k with
  | none => exact sanitizeKey_absent _ _ _ hg
  | some raw =>
    rw [sanitizeKey_present _ _ _ _ hg, ← h raw hg]
    exact dictSet_of_dictGet_eq _ _ _ hg

theorem sanitizeKey_sanitized (cfg : List (String × PyVal)) (k : String) (d : Int)
    (w : Int) (h : dictGet cfg k = some (vInt (clampSetting w))) :
    sanitizeKey cfg k d = cfg := by
  apply sanitizeKey_fix
  intro raw hraw
  rw [h] at hraw
  injection hraw with hraw'
  subst hraw'
  rw [sanitizedValue_vInt,
    clampSetting_fix (clampSetting w) (clampSetting_mem w).1 (clampSetting_mem w).2]

/-- Running the two-key sanitizer loop over an already-sanitized block is the
identity. -/
theorem sanitizePair_idem (cfg : List (String × PyVal)) :
    sanitizeKey (sanitizeKey
        (sanitizeKey (sanitizeKey cfg "debug_throttle_seconds" 60) "poll_interval_seconds" 5)
        "debug_throttle_seconds" 60) "poll_interval_seconds" 5 =
      sanitizeKey (sanitizeKey cfg "debug_throttle_seconds" 60) "poll_interval_seconds" 5 := by
  have hne : "debug_throttle_seconds" ≠ "poll_interval_seconds" := by decide
  set cfg1 := sanitizeKey cfg "debug_throttle_seconds" 60 with hcfg1
  set cfg2 := sanitizeKey cfg1 "poll_interval_seconds" 5 with hcfg2
  have step1 : sanitizeKey cfg2 "debug_throttle_seconds" 60 = cfg2 := by
    cases hg : dictGet cfg "debug_throttle_seconds" with
    | none =>
      have h1 : cfg1 = cfg := sanitizeKey_absent _ _ _ hg
      have h2 : dictGet cfg2 "debug_throttle_seconds" = Option.none := by
        rw [hcfg2, dictGet_sanitizeKey_ne _ _ _ _ hne, h1, hg]
      exact sanitizeKey_absent _ _ _ h2
    | some raw =>
      have h1 : dictGet cfg1 "debug_throttle_seconds" =
          some (vInt (clampSetting (sanitizedValue raw 60))) := by
        rw [hcfg1, sanitizeKey_present _ _ _ _ hg]
        exact dictGet_dictSet_self _ _ _
      have h2 : dictGet cfg2 "debug_throttle_seconds" =
          some (vInt (clampSetting (sanitizedValue raw 60))) := by
        rw [hcfg2, dictGet_sanitizeKey_ne _ _ _ _ hne, h1]
      exact sanitizeKey_sanitized _ _ _ _ h2
  rw [step1]
  cases hg : dictGet cfg1 "poll_interval_seconds" with
  | none =>
    have h1 : cfg2 = cfg1 := sanitizeKey_absent _ _ _ hg
    have h2 : dictGet cfg2 "poll_interval_seconds" = Option.none := by rw [h1, hg]
    exact sanitizeKey_absent _ _ _ h2
  | some raw =>
    have h2 : dictGet cfg2 "poll_interval_seconds" =
        some (vInt (clampSetting (sanitizedValue raw 5))) := by
      rw [hcfg2, sanitizeKey_present _ _ _ _ hg]
      exact dictGet_dictSet_self _ _ _
    exact sanitizeKey_sanitized _ _ _ _ h2

theorem dictGet_sanitizePair_dts_none (cfg : List (String × PyVal))
    (hab : dictGet cfg "debug_throttle_seconds" = Option.none) :
    dictGet (sanitizeKey (sanitizeKey cfg "debug_throttle_seconds" 60)
      "poll_interval_seconds" 5) "debug_throttle_seconds" = Option.none := by
  rw [dictGet_sanitizeKey_ne _ _ _ _
      (by decide : ("debug_throttle_seconds" : String) ≠ "poll_interval_seconds"),
    sanitizeKey_absent _ _ _ hab, hab]

theorem dictGet_sanitizePair_dts_some (cfg : List (String × PyVal)) (raw : PyVal)
    (hraw : dictGet cfg "debug_throttle_seconds" = some raw) :
    dictGet (sanitizeKey (sanitizeKey cfg "debug_throttle_seconds" 60)
      "poll_interval_seconds" 5) "debug_throttle_seconds" =
      some (vInt (clampSetting (sanitizedValue raw 60))) := by
  rw [dictGet_sanitizeKey_ne _ _ _ _
      (by decide : ("debug_throttle_seconds" : String) ≠ "poll_interval_seconds"),
    sanitizeKey_present _ _ _ _ hraw]
  exact dictGet_dictSet_self _ _ _

theorem dictGet_sanitizePair_pis_none (cfg : List (String × PyVal))
    (hab : dictGet cfg "poll_interval_seconds" = Option.none) :
    dictGet (sanitizeKey (sanitizeKey cfg "debug_throttle_seconds" 60)
      "poll_interval_seconds" 5) "poll_interval_seconds" = Option.none := by
  have h1 : dictGet (sanitizeKey cfg "debug_throttle_seconds" 60)
      "poll_interval_seconds" = Option.none := by
    rw [dictGet_sanitizeKey_ne _ _ _ _
        (by decide : ("poll_interval_seconds" : String) ≠ "debug_throttle_seconds"), hab]
  rw [sanitizeKey_absent _ _ _ h1, h1]

theorem dictGet_sanitizePair_pis_some (cfg : List (String × PyVal)) (raw : PyVal)
    (hraw : dictGet cfg "poll_interval_seconds" = some raw) :
    dictGet (sanitizeKey (sanitizeKey cfg "debug_throttle_seconds" 60)
      "poll_interval_seconds" 5) "poll_interval_seconds" =
      some (vInt (clampSetting (sanitizedValue raw 5))) := by
  have h1 : dictGet (sanitizeKey cfg "debug_throttle_seconds" 60)
      "poll_interval_seconds" = some raw := by
    rw [dictGet_sanitizeKey_ne _ _ _ _
        (by decide : ("poll_interval_seconds" : String) ≠ "debug_throttle_seconds"), hraw]
  rw [sanitizeKey_present _ _ _ _ h1]
  exact dictGet_dictSet_self _ _ _



theorem getLast_append_single (t : String) (suf : String) (c : Char)
    (hsuf : suf.data = [c]) : (t ++ suf).data.getLast? = some c := by
  rw [String.data_append, hsuf]
  exact List.getLast?_concat _

theorem joinSpace_append_getLast (l : List String) (x : String) (c : Char)
    (hx : x.data.getLast? = some c) :
    (joinSpace (l ++ [x])).data.getLast? = some c := by
  induction l with
  | nil => simpa [joinSpace] using hx
  | cons a t ih =>
    cases t with
    | nil =>
      show ((a ++ " " ++ x).data).getLast? = some c
      rw [String.data_append, List.getLast?_append, hx]
      rfl
    | cons b t2 =>
      show ((a ++ " " ++ joinSpace ((b :: t2) ++ [x])).data).getLast? = some c
      rw [String.data_append, List.getLast?_append, ih]
      rfl

theorem ne_of_getLast (s t : String) (c c' : Char) (h : s.data.getLast? = some c)
    (h' : t.data.getLast? = some c') (hcc : c ≠ c') : s ≠ t := by
  intro he
  rw [he, h'] at h
  injection h with hh
  exact hcc hh.symm

theorem format_uptime_getLast (q : PyFloat) :
    (format_uptime q).data.getLast? = some 's' := by
  unfold format_uptime
  dsimp only
  exact joinSpace_append_getLast _ _ _ (getLast_append_single _ _ _ rfl)

theorem format_uptime_dhm_getLast (q : PyFloat) :
    (format_uptime_dhm q).data.getLast? = some 'm' := by
  unfold format_uptime_dhm
  dsimp only
  split <;> exact getLast_append_single _ _ _ rfl

theorem format_uptime_dh_getLast (q : PyFloat) :
    (format_uptime_dh q).data.getLast? = some 'h' := by
  unfold format_uptime_dh
  dsimp only
  split <;> exact getLast_append_single _ _ _ rfl

theorem format_uptime_d_getLast (q : PyFloat) :
    (format_uptime_d q).data.getLast? = some 'd' := by
  unfold format_uptime_d
  dsimp only
  exact getLast_append_single _ _ _ rfl

theorem unknown_getLast : (unknownText).data.getLast? = some 'n' := rfl

theorem format_uptime_ne_unknown (q : PyFloat) : format_uptime q ≠ unknownText :=
  ne_of_getLast _ _ _ _ (format_uptime_getLast q) unknown_getLast (by decide)

theorem format_uptime_dhm_ne_unknown (q : PyFloat) : format_uptime_dhm q ≠ unknownText :=
  ne_of_getLast _ _ _ _ (format_uptime_dhm_getLast q) unknown_getLast (by decide)

theorem format_uptime_dh_ne_unknown (q : PyFloat) : format_uptime_dh q ≠ unknownText :=
  ne_of_getLast _ _ _ _ (format_uptime_dh_getLast q) unknown_getLast (by decide)

theorem format_uptime_d_ne_unknown (q : PyFloat) : format_uptime_d q ≠ unknownText :=
  ne_of_getLast _ _ _ _ (format_uptime_d_getLast q) unknown_getLast (by decide)

theorem psutil_raises_eq (e : PyExc) (now : PyFloat) :
    get_uptime_from_psutil (.raises e) now =
      (if psutilHandled e then .ok Option.none else .error e) := rfl

theorem psutil_boots_eq (boot : PyFloat) (now : PyFloat) :
    get_uptime_from_psutil (.boots boot) now =
      (if (PyFloat.ofInt 0).le (now.sub boot) ∧ (now.sub boot).lt (PyFloat.ofInt tenYears)
       then .ok (some (now.sub boot)) else .ok Option.none) := rfl

theorem parseProcToken_cons (tok : String) (rest : List String) :
    parseProcToken (tok :: rest) = .ok (pyFloatOfStr tok) := by
  simp only [parseProcToken]
  cases h : pyFloatOfStr tok with
  | none => rfl
  | some q => rfl

theorem get_uptime_from_psutil_ok (ps : PsutilOutcome) (now : PyFloat)
    (hps : ∀ e, ps = .raises e → psutilHandled e = true) :
    ∃ o, get_uptime_from_psutil ps now = .ok o := by
  cases ps with
  | unavailable => exact ⟨Option.none, rfl⟩
  | raises e => exact ⟨Option.none, by rw [psutil_raises_eq, if_pos (hps e rfl)]⟩
  | boots boot =>
    rw [psutil_boots_eq]
    split
    · exact ⟨some (now.sub boot), rfl⟩
    · exact ⟨Option.none, rfl⟩

theorem get_uptime_from_proc_ok (file : Option String)
    (hfile : ∀ c, file = some c → pySplitWs (firstLine c) ≠ []) :
    ∃ o, get_uptime_from_proc file = .ok o := by
  cases file with
  | none => exact ⟨Option.none, rfl⟩
  | some c =>
    simp only [get_uptime_from_proc]
    cases hsp : pySplitWs (firstLine c) with
    | nil => exact absurd hsp (hfile c rfl)
    | cons tok rest => exact ⟨pyFloatOfStr tok, parseProcToken_cons tok rest⟩

theorem resolver_no_raise_body (file : Option String) (ps : PsutilOutcome) (cmd : CmdOutcome)
    (now : PyFloat)
    (hfile : ∀ c, file = some c → pySplitWs (firstLine c) ≠ [])
    (hps : ∀ e, ps = .raises e → psutilHandled e = true) :
    (∃ r, get_uptime_seconds file ps now = .ok r ∧
      (r.1 = Option.none → r.2 = "none")) ∧
    (init_uptime_from_proc file = Option.none → (∀ b, ps ≠ .boots b) →
      cmd = CmdOutcome.fails →
      init_get_uptime_seconds file ps cmd now = PyFloat.ofInt 0) := by
  constructor
  · obtain ⟨o, ho⟩ := get_uptime_from_proc_ok file hfile
    unfold get_uptime_seconds
    rw [ho]
    cases o with
    | some u => exact ⟨(some u, "proc"), rfl, fun h => Option.noConfusion h⟩
    | none =>
      obtain ⟨o2, ho2⟩ := get_uptime_from_psutil_ok ps now hps
      rw [ho2]
      cases o2 with
      | some u => exact ⟨(some u, "psutil"), rfl, fun h => Option.noConfusion h⟩
      | none => exact ⟨(Option.none, "none"), rfl, fun _ => rfl⟩
  · intro h1 h2 h3
    unfold init_get_uptime_seconds
    rw [h1, h3]
    cases ps with
    | unavailable => rfl
    | raises e => rfl
    | boots b => exact absurd rfl (h2 b)

theorem resolver_proc_priority_body (content : String) (v : PyFloat) (ps : PsutilOutcome)
    (cmd : CmdOutcome) (now : PyFloat)
    (hproc : get_uptime_from_proc (some content) = .ok (some v)) :
    get_uptime_seconds (some content) ps now = .ok (some v, "proc") ∧
    init_get_uptime_seconds (some content) ps cmd now = v := by
  constructor
  · unfold get_uptime_seconds
    rw [hproc]
  · unfold init_get_uptime_seconds init_uptime_from_proc
    rw [hproc]

theorem psutil_bound_body (ps : PsutilOutcome) (now : PyFloat) :
    (∀ u, get_uptime_from_psutil ps now = .ok (some u) →
      ((PyFloat.ofInt 0).le u ∧ u.lt (PyFloat.ofInt tenYears)) ∧
      ∃ boot, ps = .boots boot ∧ u = now.sub boot) ∧
    (∀ boot, ps = .boots boot →
      ¬((PyFloat.ofInt 0).le (now.sub boot) ∧
        (now.sub boot).lt (PyFloat.ofInt tenYears)) →
      get_uptime_from_psutil ps now = .ok Option.none) := by
  constructor
  · intro u hu
    cases ps with
    | unavailable =>
      injection hu with hu'
      exact absurd hu' (by simp)
    | raises e =>
      rw [psutil_raises_eq] at hu
      split at hu
      · injection hu with hu'
        exact absurd hu' (by simp)
      · exact absurd hu (by simp)
    | boots boot =>
      rw [psutil_boots_eq] at hu
      split at hu
      · next hcond =>
        injection hu with hu'
        injection hu' with hu''
        exact ⟨hu'' ▸ hcond, boot, rfl, hu''.symm⟩
      · injection hu with hu'
        exact absurd hu' (by simp)
  · intro boot hb hcond
    subst hb
    rw [psutil_boots_eq, if_neg hcond]

theorem proc_strategy_body (file : Option String) :
    (∀ e, get_uptime_from_proc file = .error e →
      e = PyExc.indexError ∧ ∃ c, file = some c ∧ pySplitWs (firstLine c) = []) ∧
    (∀ c tok rest, file = some c → pySplitWs (firstLine c) = tok :: rest →
      get_uptime_from_proc file = .ok (pyFloatOfStr tok) ∧
      init_uptime_from_proc file = pyFloatOfStr tok) ∧
    (file = Option.none →
      get_uptime_from_proc file = .ok Option.none ∧
      init_uptime_from_proc file = Option.none) ∧
    (∀ c, file = some c → pySplitWs (firstLine c) = [] →
      get_uptime_from_proc file = .error PyExc.indexError ∧
      init_uptime_from_proc file = Option.none) := by
  refine ⟨?_, ?_, ?_, ?_⟩
  · intro e he
    cases file with
    | none => exact absurd he (by simp [get_uptime_from_proc])
    | some c =>
      simp only [get_uptime_from_proc] at he
      cases hsp : pySplitWs (firstLine c) with
      | nil =>
        rw [hsp] at he
        injection he with he'
        exact ⟨he'.symm, c, rfl, hsp⟩
      | cons tok rest =>
        rw [hsp, parseProcToken_cons] at he
        exact absurd he (by simp)
  · intro c tok rest hc hsp
    subst hc
    have h1 : get_uptime_from_proc (some c) = .ok (pyFloatOfStr tok) := by
      simp only [get_uptime_from_proc]
      rw [hsp, parseProcToken_cons]
    exact ⟨h1, by unfold init_uptime_from_proc; rw [h1]⟩
  · intro hf
    subst hf
    exact ⟨rfl, rfl⟩
  · intro c hc hsp
    subst hc
    have h1 : get_uptime_from_proc (some c) = .error PyExc.indexError := by
      simp only [get_uptime_from_proc]
      rw [hsp]
      rfl
    exact ⟨h1, by unfold init_uptime_from_proc; rw [h1]⟩



theorem dictGet_forbidden_simple :
    dictGet [("error", vStr "Forbidden")] "error" = some (vStr "Forbidden") := by
  simp [dictGet]

theorem dictGet_forbidden_fallback :
    dictGet forbiddenFallback "error" = some (vStr "Forbidden") := by
  simp [forbiddenFallback, dictGet]

theorem permission_denial_body (flask : Bool) (check : CheckOutcome) (ab : AbortOutcome)
    (hdeny : check = CheckOutcome.denies ∨
      ∃ e, check = CheckOutcome.raises e ∧ permHandled e = true) :
    on_api_get_gate flask check ab ≠ ApiGetResult.payload ∧
    ((ab = AbortOutcome.aborts ∨
      (∃ e, ab = AbortOutcome.raises e ∧ abortHandled e = true) ∨ flask = false) →
      handle_permission_check flask check ab = HandlerOutcome.httpAbort403 ∨
      ∃ d, handle_permission_check flask check ab = HandlerOutcome.forbiddenMap d ∧
        dictGet d "error" = some (vStr "Forbidden")) ∧
    (∀ e, ab = AbortOutcome.raises e → abortHandled e = true →
      ∃ d, handle_permission_check flask check ab = HandlerOutcome.forbiddenMap d ∧
        dictGet d "error" = some (vStr "Forbidden")) := by
  have hgate : handle_permission_check flask check ab = try_abort_forbidden flask ab := by
    rcases hdeny with rfl | ⟨e, rfl, he⟩
    · rfl
    · simp [handle_permission_check, he]
  refine ⟨?_, ?_, ?_⟩
  · intro hpay
    unfold on_api_get_gate at hpay
    rw [hgate] at hpay
    unfold try_abort_forbidden at hpay
    cases hf : flask with
    | true =>
      rw [hf] at hpay
      cases ab with
      | aborts => exact absurd hpay (by simp)
      | raises e =>
        by_cases he : abortHandled e = true <;> simp [he] at hpay
    | false => rw [hf] at hpay; exact absurd hpay (by simp)
  · rintro (rfl | ⟨e, rfl, he⟩ | hf)
    · rw [hgate]
      cases hf : flask with
      | true => left; simp [try_abort_forbidden]
      | false =>
        right
        exact ⟨[("error", vStr "Forbidden")], by simp [try_abort_forbidden],
          dictGet_forbidden_simple⟩
    · rw [hgate]
      cases hf : flask with
      | true =>
        right
        refine ⟨forbiddenFallback, ?_, dictGet_forbidden_fallback⟩
        simp [try_abort_forbidden, he]
      | false =>
        right
        exact ⟨[("error", vStr "Forbidden")], by simp [try_abort_forbidden],
          dictGet_forbidden_simple⟩
    · rw [hgate, hf]
      right
      exact ⟨[("error", vStr "Forbidden")], by simp [try_abort_forbidden],
        dictGet_forbidden_simple⟩
  · intro e hab he
    subst hab
    rw [hgate]
    cases hf : flask with
    | true =>
      refine ⟨forbiddenFallback, ?_, dictGet_forbidden_fallback⟩
      simp [try_abort_forbidden, he]
    | false =>
      exact ⟨[("error", vStr "Forbidden")], by simp [try_abort_forbidden],
        dictGet_forbidden_simple⟩



theorem readNavbarEnabled_val (v : PyVal) :
    readNavbarEnabled (GetOutcome.val v) = .ok (if isNoneV v then true else pyBool v) := by
  cases v <;> rfl

theorem readNavbar_ok (o : GetOutcome)
    (ho : ∀ e, o = GetOutcome.raises e → settingsHandled e = true) :
    ∃ b, readNavbarEnabled o = .ok b ∧
      (o = GetOutcome.val vNone → b = true) ∧
      (∀ e, o = GetOutcome.raises e → b = true) := by
  cases o with
  | raises e =>
    refine ⟨true, ?_, fun h => rfl, fun e' h => rfl⟩
    simp [readNavbarEnabled, ho e rfl]
  | val v =>
    refine ⟨if isNoneV v then true else pyBool v, readNavbarEnabled_val v, ?_, ?_⟩
    · intro h
      injection h with h'
      subst h'
      rfl
    · intro e h
      cases h

theorem readDisplayFormat_val (v : PyVal) :
    readDisplayFormat (GetOutcome.val v) = .ok (if isNoneV v then "full" else pyStr v) := by
  cases v <;> rfl

theorem readDisplayFormat_ok (o : GetOutcome)
    (ho : ∀ e, o = GetOutcome.raises e → settingsHandled e = true) :
    ∃ f, readDisplayFormat o = .ok f ∧
      (o = GetOutcome.val vNone → f = "full") ∧
      (∀ e, o = GetOutcome.raises e → f = "full") := by
  cases o with
  | raises e =>
    refine ⟨"full", ?_, fun h => rfl, fun e' h => rfl⟩
    simp [readDisplayFormat, ho e rfl]
  | val v =>
    refine ⟨if isNoneV v then "full" else pyStr v, readDisplayFormat_val v, ?_, ?_⟩
    · intro h
      injection h with h'
      subst h'
      rfl
    · intro e h
      cases h

theorem clampPoll_mem (p : Int) :
    1 ≤ (if p < 1 then 1 else if p > 120 then 120 else p) ∧
    (if p < 1 then 1 else if p > 120 then 120 else p) ≤ 120 := by
  constructor <;> split <;> try omega


theorem readPollInterval_ok (o : GetOutcome)
    (ho : ∀ e, o = GetOutcome.raises e → settingsHandled e = true) :
    ∃ p, readPollInterval o = .ok p ∧ 1 ≤ p ∧ p ≤ 120 ∧
      (o = GetOutcome.val vNone → p = 5) ∧
      (∀ e, o = GetOutcome.raises e → p = 5) ∧
      (∀ s, o = GetOutcome.val (vStr s) → pyIntOfStr s = .error PyExc.valueError → p = 5) ∧
      (∀ i, o = GetOutcome.val (vInt i) →
        p = if i < 1 then 1 else if i > 120 then 120 else i) := by
  cases o with
  | raises e =>
    refine ⟨5, ?_, by omega, by omega, fun h => rfl, fun e' h => rfl, ?_, ?_⟩
    · simp [readPollInterval, ho e rfl]
    · intro s h
      cases h
    · intro i h
      cases h
  | val v =>
    have hval : ∀ (b1 : Int), readPollInterval (GetOutcome.val v) = .ok b1 →
      ∃ p, readPollInterval (GetOutcome.val v) = .ok p := fun b1 hb => ⟨b1, hb⟩
    by_cases hnone : isNoneV v || isEmptyStr v
    · refine ⟨5, ?_, by omega, by omega, ?_, ?_, ?_, ?_⟩
      · simp [readPollInterval, hnone]
      · intro h
        rfl
      · intro e h
        cases h
      · intro s h hpe
        rfl
      · intro i h
        injection h with h'
        subst h'
        simp [isNoneV, isEmptyStr] at hnone
    · have hcond : (isNoneV v || isEmptyStr v) = false := by
        simpa using hnone
      have heq : readPollInterval (GetOutcome.val v) =
          .ok (let p : Int := match pyInt v with | .ok n => n | .error _ => 5
               if p < 1 then 1 else if p > 120 then 120 else p) := by
        simp only [readPollInterval, hcond, Bool.false_eq_true, if_false]
      refine ⟨_, heq, ?_, ?_, ?_, ?_, ?_, ?_⟩
      · exact (clampPoll_mem _).1
      · exact (clampPoll_mem _).2
      · intro h
        injection h with h'
        subst h'
        simp [isNoneV] at hcond
      · intro e h
        cases h
      · intro s h hpe
        injection h with h'
        subst h'
        simp only [pyInt, hpe]
        decide
      · intro i h
        injection h with h'
        subst h'
        rfl

theorem api_settings_body (store : String → GetOutcome)
    (hs : ∀ k e, store k = GetOutcome.raises e → settingsHandled e = true) :
    ∃ nav fmt poll, get_api_settings store = .ok (nav, fmt, poll) ∧
      1 ≤ poll ∧ poll ≤ 120 ∧
      (store "navbar_enabled" = GetOutcome.val vNone → nav = true) ∧
      (∀ e, store "navbar_enabled" = GetOutcome.raises e → nav = true) ∧
      (store "display_format" = GetOutcome.val vNone → fmt = "full") ∧
      (store "poll_interval_seconds" = GetOutcome.val vNone → poll = 5) ∧
      (∀ s, store "poll_interval_seconds" = GetOutcome.val (vStr s) →
        pyIntOfStr s = .error PyExc.valueError → poll = 5) ∧
      (∀ i, store "poll_interval_seconds" = GetOutcome.val (vInt i) →
        poll = if i < 1 then 1 else if i > 120 then 120 else i) := by
  obtain ⟨nav, hnav, hnav1, hnav2⟩ :=
    readNavbar_ok (store "navbar_enabled") (hs "navbar_enabled")
  obtain ⟨fmt, hfmt, hfmt1, hfmt2⟩ :=
    readDisplayFormat_ok (store "display_format") (hs "display_format")
  obtain ⟨poll, hpoll, hp1, hp2, hp3, hp4, hp5, hp6⟩ :=
    readPollInterval_ok (store "poll_interval_seconds") (hs "poll_interval_seconds")
  refine ⟨nav, fmt, poll, ?_, hp1, hp2, hnav1, hnav2, hfmt1, hp3, hp5, hp6⟩
  unfold get_api_settings
  rw [hnav, hfmt, hpoll]



theorem uptime_info_body (res : PyVal) :
    (get_uptime_info res).1 = toFloatVal res ∧
    ((get_uptime_info res).1 = Option.none ↔
      (get_uptime_info res).2.1 = unknownText ∧
      (get_uptime_info res).2.2.1 = unknownText ∧
      (get_uptime_info res).2.2.2.1 = unknownText ∧
      (get_uptime_info res).2.2.2.2 = unknownText) ∧
    (res = vNone → (get_uptime_info res).1 = Option.none) ∧
    (uptime_info_fallback.1 = Option.none ∧
      uptime_info_fallback.2.1 = unknownText ∧
      uptime_info_fallback.2.2.1 = unknownText ∧
      uptime_info_fallback.2.2.2.1 = unknownText ∧
      uptime_info_fallback.2.2.2.2 = unknownText) := by
  refine ⟨?_, ?_, ?_, ⟨rfl, rfl, rfl, rfl, rfl⟩⟩
  · unfold get_uptime_info
    cases h : toFloatVal res with
    | none => rfl
    | some q => rfl
  · unfold get_uptime_info
    cases h : toFloatVal res with
    | none => simp
    | some q =>
      simp only []
      constructor
      · intro hq
        cases hq
      · rintro ⟨h1, h2, h3, h4⟩
        exact absurd h1 (format_uptime_ne_unknown q)
  · rintro rfl
    rfl

theorem sanitize_idem_body (data : PyVal) :
    validate_and_sanitize_settings (validate_and_sanitize_settings data) =
      validate_and_sanitize_settings data := by
  cases data with
  | vNone => rfl
  | vBool b => rfl
  | vInt i => rfl
  | vFloat q => rfl
  | vStr s => rfl
  | vList xs => rfl
  | vDict entries =>
    cases hp : dictGet entries "plugins" with
    | none => simp [validate_and_sanitize_settings, hp]
    | some pv =>
      cases pv with
      | vNone => simp [validate_and_sanitize_settings, hp]
      | vBool b => simp [validate_and_sanitize_settings, hp]
      | vInt i => simp [validate_and_sanitize_settings, hp]
      | vFloat q => simp [validate_and_sanitize_settings, hp]
      | vStr s => simp [validate_and_sanitize_settings, hp]
      | vList xs => simp [validate_and_sanitize_settings, hp]
      | vDict plugins =>
        cases ho : dictGet plugins "octoprint_uptime" with
        | none => simp [validate_and_sanitize_settings, hp, ho]
        | some ov =>
          cases ov with
          | vNone => simp [validate_and_sanitize_settings, hp, ho]
          | vBool b => simp [validate_and_sanitize_settings, hp, ho]
          | vInt i => simp [validate_and_sanitize_settings, hp, ho]
          | vFloat q => simp [validate_and_sanitize_settings, hp, ho]
          | vStr s => simp [validate_and_sanitize_settings, hp, ho]
          | vList xs => simp [validate_and_sanitize_settings, hp, ho]
          | vDict cfg =>
            simp only [validate_and_sanitize_settings, hp, ho, dictGet_dictSet_self,
              sanitizePair_idem, dictSet_dictSet]

theorem sanitizer_amended_body (data : PyVal) :
    ((∀ es, data ≠ vDict es) → validate_and_sanitize_settings data = data) ∧
    (∀ entries, data = vDict entries →
      ((∀ pl, dictGet entries "plugins" ≠ some (vDict pl)) →
        validate_and_sanitize_settings data = data) ∧
      (∀ plugins, dictGet entries "plugins" = some (vDict plugins) →
        ((∀ c, dictGet plugins "octoprint_uptime" ≠ some (vDict c)) →
          validate_and_sanitize_settings data = data) ∧
        (∀ cfg, dictGet plugins "octoprint_uptime" = some (vDict cfg) →
          ∃ entries' plugins' cfg',
            validate_and_sanitize_settings data = vDict entries' ∧
            dictGet entries' "plugins" = some (vDict plugins') ∧
            dictGet plugins' "octoprint_uptime" = some (vDict cfg') ∧
            (∀ k, k ≠ "plugins" → dictGet entries' k = dictGet entries k) ∧
            (∀ k, k ≠ "octoprint_uptime" → dictGet plugins' k = dictGet plugins k) ∧
            (∀ k, k ≠ "debug_throttle_seconds" → k ≠ "poll_interval_seconds" →
              dictGet cfg' k = dictGet cfg k) ∧
            (∀ k d, ((k, d) = ("debug_throttle_seconds", (60 : Int)) ∨
                     (k, d) = ("poll_interval_seconds", (5 : Int))) →
              (dictGet cfg k = Option.none → dictGet cfg' k = Option.none) ∧
              (∀ raw, dictGet cfg k = some raw →
                dictGet cfg' k = some (vInt (clampSetting (sanitizedValue raw d))) ∧
                1 ≤ clampSetting (sanitizedValue raw d) ∧
                clampSetting (sanitizedValue raw d) ≤ 120))))) := by
  constructor
  · intro hnd
    cases data with
    | vDict es => exact absurd rfl (hnd es)
    | vNone => rfl
    | vBool b => rfl
    | vInt i => rfl
    | vFloat q => rfl
    | vStr s => rfl
    | vList xs => rfl
  · rintro entries rfl
    constructor
    · intro hnp
      cases hp : dictGet entries "plugins" with
      | none => simp [validate_and_sanitize_settings, hp]
      | some pv =>
        cases pv with
        | vDict pl => exact absurd hp (hnp pl)
        | vNone => simp [validate_and_sanitize_settings, hp]
        | vBool b => simp [validate_and_sanitize_settings, hp]
        | vInt i => simp [validate_and_sanitize_settings, hp]
        | vFloat q => simp [validate_and_sanitize_settings, hp]
        | vStr s => simp [validate_and_sanitize_settings, hp]
        | vList xs => simp [validate_and_sanitize_settings, hp]
    · intro plugins hp
      constructor
      · intro hno
        cases ho : dictGet plugins "octoprint_uptime" with
        | none => simp [validate_and_sanitize_settings, hp, ho]
        | some ov =>
          cases ov with
          | vDict c => exact absurd ho (hno c)
          | vNone => simp [validate_and_sanitize_settings, hp, ho]
          | vBool b => simp [validate_and_sanitize_settings, hp, ho]
          | vInt i => simp [validate_and_sanitize_settings, hp, ho]
          | vFloat q => simp [validate_and_sanitize_settings, hp, ho]
          | vStr s => simp [validate_and_sanitize_settings, hp, ho]
          | vList xs => simp [validate_and_sanitize_settings, hp, ho]
      · intro cfg ho
        have hkne : ("poll_interval_seconds" : String) ≠ "debug_throttle_seconds" := by decide
        set cfgS := sanitizeKey (sanitizeKey cfg "debug_throttle_seconds" 60)
          "poll_interval_seconds" 5 with hcfgS
        refine ⟨dictSet entries "plugins"
            (vDict (dictSet plugins "octoprint_uptime" (vDict cfgS))),
          dictSet plugins "octoprint_uptime" (vDict cfgS), cfgS, ?_,
          dictGet_dictSet_self _ _ _, dictGet_dictSet_self _ _ _, ?_, ?_, ?_, ?_⟩
        · simp only [validate_and_sanitize_settings, hp, ho]
        · intro k hk
          exact dictGet_dictSet_ne _ _ _ _ hk
        · intro k hk
          exact dictGet_dictSet_ne _ _ _ _ hk
        · intro k hk1 hk2
          rw [dictGet_sanitizeKey_ne _ _ _ _ hk2, dictGet_sanitizeKey_ne _ _ _ _ hk1]
        · rintro k d (h | h) <;> rw [Prod.mk.injEq] at h
          · obtain ⟨rfl, rfl⟩ := h
            rw [hcfgS]
            exact ⟨fun hab => dictGet_sanitizePair_dts_none cfg hab,
              fun raw hraw => ⟨dictGet_sanitizePair_dts_some cfg raw hraw,
                (clampSetting_mem _).1, (clampSetting_mem _).2⟩⟩
          · obtain ⟨rfl, rfl⟩ := h
            rw [hcfgS]
            exact ⟨fun hab => dictGet_sanitizePair_pis_none cfg hab,
              fun raw hraw => ⟨dictGet_sanitizePair_pis_some cfg raw hraw,
                (clampSetting_mem _).1, (clampSetting_mem _).2⟩⟩

/-! ## The claims -/

/-- C1 (amended).  For every integer `s ≥ 0` the full-format duration rule of
the claim — decompose with `86400/3600/60`, emit days only if positive, hours
if positive or days emitted, minutes if positive or an hour/day component
emitted, seconds unless zero and another component already emitted, joined by
single spaces in descending order — is implemented exactly by `__init__.py`'s
`_format_uptime`; `plugin.py`'s `format_uptime` implements the same rule
except that the seconds component is always emitted, so the claimed
suppression (`format_full(60) = "1m"`) holds only for the init variant. -/
theorem claim_C1_format_full_amended (s : Int) (hs : 0 ≤ s) :
    init_format_uptime (PyFloat.ofInt s) = formatFullSpec s ∧
    format_uptime (PyFloat.ofInt s) = formatFullAllSpec s :=
  ⟨init_format_uptime_eq_spec s hs, format_uptime_eq_spec s hs⟩

/-- C1 counterexample: the claim requires the trailing `"0s"` to be
suppressed at `s = 60` by `format_uptime` as well, but `plugin.py`'s
`format_uptime` appends the seconds component unconditionally and returns
`"1m 0s"`, not `"1m"` (the init variant returns `"1m"`). -/
theorem claim_C1_format_full_counterexample :
    format_uptime (PyFloat.ofInt 60) = "1m 0s" ∧
    init_format_uptime (PyFloat.ofInt 60) = "1m" ∧
    ("1m 0s" : String) ≠ "1m" :=
  ⟨rfl, rfl, by decide⟩

/-- C1 witness: the amended theorem applied at the claim's own sample points. -/
theorem claim_C1_format_full_witness :
    init_format_uptime (PyFloat.ofInt 90061) = "1d 1h 1m 1s" ∧
    format_uptime (PyFloat.ofInt 3601) = "1h 0m 1s" ∧
    init_format_uptime (PyFloat.ofInt 0) = "0s" := by
  have h1 := (claim_C1_format_full_amended 90061 (by decide)).1
  have h2 := (claim_C1_format_full_amended 3601 (by decide)).2
  have h3 := (claim_C1_format_full_amended 0 (by decide)).1
  exact ⟨h1.trans rfl, h2.trans rfl, h3.trans rfl⟩

/-- C2 (amended).  The tagged resolver of `plugin.py` returns a successful
strategy's result or, when both strategies fall through, the pair
`(None, "none")`, without raising — *provided* the proc file's first line is
not blank (an empty `split()` result raises an uncaught `IndexError`) and any
psutil exception is among the caught classes.  The untagged resolver of
`__init__.py` never raises (bare `except Exception` around every strategy)
and returns `0` when all three strategies fail. -/
theorem claim_C2_resolver_no_raise_amended (file : Option String) (ps : PsutilOutcome)
    (cmd : CmdOutcome) (now : PyFloat)
    (hfile : ∀ c, file = some c → pySplitWs (firstLine c) ≠ [])
    (hps : ∀ e, ps = .raises e → psutilHandled e = true) :
    (∃ r, get_uptime_seconds file ps now = .ok r ∧
      (r.1 = Option.none → r.2 = "none")) ∧
    (init_uptime_from_proc file = Option.none → (∀ b, ps ≠ .boots b) →
      cmd = CmdOutcome.fails →
      init_get_uptime_seconds file ps cmd now = PyFloat.ofInt 0) :=
  resolver_no_raise_body file ps cmd now hfile hps

/-- C2 counterexample: an empty (or blank-first-line) `/proc/uptime` makes
`split()[0]` raise `IndexError`, which `plugin.py` catches nowhere, so the
exception escapes `_get_uptime_seconds` — contradicting "never raises past
its caller ... for every outcome (… malformed file content …)". -/
theorem claim_C2_resolver_no_raise_counterexample :
    get_uptime_seconds (some "") PsutilOutcome.unavailable (PyFloat.ofInt 0) =
      .error PyExc.indexError := rfl

/-- C2 witness: the amended theorem at the all-strategies-fail point. -/
theorem claim_C2_resolver_no_raise_witness :
    get_uptime_seconds Option.none PsutilOutcome.unavailable (PyFloat.ofInt 0) =
      .ok (Option.none, "none") ∧
    init_get_uptime_seconds Option.none PsutilOutcome.unavailable CmdOutcome.fails
      (PyFloat.ofInt 0) = PyFloat.ofInt 0 := by
  have h := claim_C2_resolver_no_raise_amended Option.none PsutilOutcome.unavailable
    CmdOutcome.fails (PyFloat.ofInt 0) (fun c hc => nomatch hc) (fun e he => nomatch he)
  exact ⟨rfl, h.2 rfl (fun b hb => nomatch hb) rfl⟩

/-- C3 (confirmed).  Whenever the proc-file strategy succeeds with value `v`,
the tagged resolver returns `(v, "proc")` and the untagged resolver returns
`v`, for every behaviour of the psutil and command strategies — so the later
strategies never override `/proc/uptime`. -/
theorem claim_C3_resolver_priority (content : String) (v : PyFloat) (ps : PsutilOutcome)
    (cmd : CmdOutcome) (now : PyFloat)
    (hproc : get_uptime_from_proc (some content) = .ok (some v)) :
    get_uptime_seconds (some content) ps now = .ok (some v, "proc") ∧
    init_get_uptime_seconds (some content) ps cmd now = v :=
  resolver_proc_priority_body content v ps cmd now hproc

/-- C3 witness: a proc file reading `123.5`, while the psutil strategy would
also succeed (`boot = 0`, `now = 100`) and the command strategy would also
succeed — the result is still the proc value with tag `"proc"`. -/
theorem claim_C3_resolver_priority_witness :
    get_uptime_seconds (some "123.5 0.2") (PsutilOutcome.boots (PyFloat.ofInt 0))
      (PyFloat.ofInt 100) = .ok (some ⟨1235, 10⟩, "proc") ∧
    init_get_uptime_seconds (some "123.5 0.2") (PsutilOutcome.boots (PyFloat.ofInt 0))
      (CmdOutcome.boots (PyFloat.ofInt 0)) (PyFloat.ofInt 100) = ⟨1235, 10⟩ ∧
    get_uptime_from_psutil (PsutilOutcome.boots (PyFloat.ofInt 0)) (PyFloat.ofInt 100) =
      .ok (some (PyFloat.sub (PyFloat.ofInt 100) (PyFloat.ofInt 0))) := by
  have h := claim_C3_resolver_priority "123.5 0.2" ⟨1235, 10⟩
    (PsutilOutcome.boots (PyFloat.ofInt 0)) (CmdOutcome.boots (PyFloat.ofInt 0))
    (PyFloat.ofInt 100) rfl
  exact ⟨h.1, h.2, rfl⟩

/-- C4 (amended).  `plugin.py`'s `_get_uptime_from_psutil` is exactly as the
claim states: it only ever returns `now - boot_time` when that lies in
`[0, 10·365·24·3600)` and falls through to `None` for a negative or
implausibly large duration.  The psutil step of `__init__.py`'s resolver,
however, returns `time.time() - psutil.boot_time()` with no plausibility
check at all, so the claimed bound does not hold for that variant. -/
theorem claim_C4_psutil_bound_amended (ps : PsutilOutcome) (now : PyFloat) :
    (∀ u, get_uptime_from_psutil ps now = .ok (some u) →
      ((PyFloat.ofInt 0).le u ∧ u.lt (PyFloat.ofInt tenYears)) ∧
      ∃ boot, ps = .boots boot ∧ u = now.sub boot) ∧
    (∀ boot, ps = .boots boot →
      ¬((PyFloat.ofInt 0).le (now.sub boot) ∧
        (now.sub boot).lt (PyFloat.ofInt tenYears)) →
      get_uptime_from_psutil ps now = .ok Option.none) :=
  psutil_bound_body ps now

/-- C4 counterexample: with `boot_time = 100` and `now = 0` (clock skew), the
`__init__.py` psutil step returns the negative duration `-100` instead of
treating the strategy as failed, contradicting the claim for that cited
variant. -/
theorem claim_C4_psutil_bound_counterexample :
    init_get_uptime_seconds Option.none (PsutilOutcome.boots (PyFloat.ofInt 100))
      CmdOutcome.fails (PyFloat.ofInt 0) = ⟨-100, 1⟩ ∧
    PyFloat.lt ⟨-100, 1⟩ (PyFloat.ofInt 0) :=
  ⟨rfl, by decide⟩

/-- C4 witness: the amended theorem rejecting the same skewed reading in the
`plugin.py` strategy. -/
theorem claim_C4_psutil_bound_witness :
    get_uptime_from_psutil (PsutilOutcome.boots (PyFloat.ofInt 100)) (PyFloat.ofInt 0) =
      .ok Option.none :=
  (claim_C4_psutil_bound_amended (PsutilOutcome.boots (PyFloat.ofInt 100))
    (PyFloat.ofInt 0)).2 (PyFloat.ofInt 100) rfl (by decide)

/-- C5 (amended).  For every content of the uptime virtual file:
`plugin.py`'s `_get_uptime_from_proc` returns the parsed float (of either
sign) of the first whitespace token, `None` on a missing file or a
`float()` parse failure — but raises `IndexError` exactly when the first
line holds no token; `__init__.py`'s proc step computes the same value and
never raises (bare `except`). -/
theorem claim_C5_proc_safety_amended (file : Option String) :
    (∀ e, get_uptime_from_proc file = .error e →
      e = PyExc.indexError ∧ ∃ c, file = some c ∧ pySplitWs (firstLine c) = []) ∧
    (∀ c tok rest, file = some c → pySplitWs (firstLine c) = tok :: rest →
      get_uptime_from_proc file = .ok (pyFloatOfStr tok) ∧
      init_uptime_from_proc file = pyFloatOfStr tok) ∧
    (file = Option.none →
      get_uptime_from_proc file = .ok Option.none ∧
      init_uptime_from_proc file = Option.none) ∧
    (∀ c, file = some c → pySplitWs (firstLine c) = [] →
      get_uptime_from_proc file = .error PyExc.indexError ∧
      init_uptime_from_proc file = Option.none) :=
  proc_strategy_body file

/-- C5 counterexample: an empty file raises `IndexError` out of the plugin
variant (the claim says it falls through without raising), and a file reading
`-5.0` returns the negative float `-5.0` (the claim says only non-negative
parsed floats are returned). -/
theorem claim_C5_proc_safety_counterexample :
    get_uptime_from_proc (some "") = .error PyExc.indexError ∧
    get_uptime_from_proc (some "-5.0 1.0") = .ok (some ⟨-50, 10⟩) ∧
    PyFloat.lt ⟨-50, 10⟩ (PyFloat.ofInt 0) :=
  ⟨rfl, rfl, by decide⟩

/-- C5 witness: the amended theorem at a file reading `12.5`. -/
theorem claim_C5_proc_safety_witness :
    get_uptime_from_proc (some "12.5") = .ok (some ⟨125, 10⟩) := by
  have h := (claim_C5_proc_safety_amended (some "12.5")).2.1 "12.5" "12.5" [] rfl rfl
  exact h.1.trans rfl

/-- C6 (amended).  The settings sanitizer is a no-op when the root is not a
mapping or the nested `plugins`/`octoprint_uptime` block is absent or not a
mapping.  Otherwise, for each of `debug_throttle_seconds` (default 60) and
`poll_interval_seconds` (default 5) *that is present in the block*, a `None`
or unconvertible value is replaced by the default and any other value is
converted with `int()` and clamped into `[1, 120]`; a key that is *missing*
is left untouched (no default is inserted, contrary to the claim); no other
field at any level is touched. -/
theorem claim_C6_sanitizer_amended (data : PyVal) :
    ((∀ es, data ≠ vDict es) → validate_and_sanitize_settings data = data) ∧
    (∀ entries, data = vDict entries →
      ((∀ pl, dictGet entries "plugins" ≠ some (vDict pl)) →
        validate_and_sanitize_settings data = data) ∧
      (∀ plugins, dictGet entries "plugins" = some (vDict plugins) →
        ((∀ c, dictGet plugins "octoprint_uptime" ≠ some (vDict c)) →
          validate_and_sanitize_settings data = data) ∧
        (∀ cfg, dictGet plugins "octoprint_uptime" = some (vDict cfg) →
          ∃ entries' plugins' cfg',
            validate_and_sanitize_settings data = vDict entries' ∧
            dictGet entries' "plugins" = some (vDict plugins') ∧
            dictGet plugins' "octoprint_uptime" = some (vDict cfg') ∧
            (∀ k, k ≠ "plugins" → dictGet entries' k = dictGet entries k) ∧
            (∀ k, k ≠ "octoprint_uptime" → dictGet plugins' k = dictGet plugins k) ∧
            (∀ k, k ≠ "debug_throttle_seconds" → k ≠ "poll_interval_seconds" →
              dictGet cfg' k = dictGet cfg k) ∧
            (∀ k d, ((k, d) = ("debug_throttle_seconds", (60 : Int)) ∨
                     (k, d) = ("poll_interval_seconds", (5 : Int))) →
              (dictGet cfg k = Option.none → dictGet cfg' k = Option.none) ∧
              (∀ raw, dictGet cfg k = some raw →
                dictGet cfg' k = some (vInt (clampSetting (sanitizedValue raw d))) ∧
                1 ≤ clampSetting (sanitizedValue raw d) ∧
                clampSetting (sanitizedValue raw d) ≤ 120))))) :=
  sanitizer_amended_body data

/-- C6 counterexample: with the nested block present but *empty*, the claim
requires the two integer fields to be replaced by their defaults (60 and 5);
the code's `if key in uptime_cfg` guard skips absent keys, so the record is
returned unchanged and no default is inserted. -/
theorem claim_C6_sanitizer_counterexample :
    validate_and_sanitize_settings
        (vDict [("plugins", vDict [("octoprint_uptime", vDict [])])]) =
      vDict [("plugins", vDict [("octoprint_uptime", vDict [])])] ∧
    cfgField (validate_and_sanitize_settings
        (vDict [("plugins", vDict [("octoprint_uptime", vDict [])])]))
      "debug_throttle_seconds" = Option.none ∧
    cfgField (validate_and_sanitize_settings
        (vDict [("plugins", vDict [("octoprint_uptime", vDict [])])]))
      "poll_interval_seconds" = Option.none :=
  ⟨rfl, rfl, rfl⟩

/-- C6 witness: the amended theorem's no-op clause at a non-mapping root,
together with the boundary inputs of the claim (`0 → 1`, `999 → 120`,
untouched unrelated field) evaluated on a concrete record. -/
theorem claim_C6_sanitizer_witness :
    validate_and_sanitize_settings (vInt 7) = vInt 7 ∧
    cfgField (validate_and_sanitize_settings
        (vDict [("plugins", vDict [("octoprint_uptime",
          vDict [("debug_throttle_seconds", vInt 0), ("poll_interval_seconds", vInt 999),
                 ("other", vStr "x")])])]))
      "debug_throttle_seconds" = some (vInt 1) ∧
    cfgField (validate_and_sanitize_settings
        (vDict [("plugins", vDict [("octoprint_uptime",
          vDict [("debug_throttle_seconds", vInt 0), ("poll_interval_seconds", vInt 999),
                 ("other", vStr "x")])])]))
      "poll_interval_seconds" = some (vInt 120) ∧
    cfgField (validate_and_sanitize_settings
        (vDict [("plugins", vDict [("octoprint_uptime",
          vDict [("debug_throttle_seconds", vInt 0), ("poll_interval_seconds", vInt 999),
                 ("other", vStr "x")])])]))
      "other" = some (vStr "x") :=
  ⟨(claim_C6_sanitizer_amended (vInt 7)).1 (fun _ h => nomatch h), rfl, rfl, rfl⟩

/-- C7 (confirmed).  The settings sanitizer is idempotent: applying it twice
to any settings record yields exactly the record obtained by applying it
once. -/
theorem claim_C7_sanitizer_idempotent (data : PyVal) :
    validate_and_sanitize_settings (validate_and_sanitize_settings data) =
      validate_and_sanitize_settings data :=
  sanitize_idem_body data

/-- C8 (confirmed).  Whenever the access-control predicate denies the request
(or raises one of the handled exception classes), `on_api_get` never returns
the 200 uptime payload; with Flask present and `flask.abort` behaving as
designed the result is the HTTP 403 abort, without Flask it is a mapping with
`error = "Forbidden"`; and when the forbidden-response construction itself
raises one of the handled exception classes the handler still returns a
forbidden mapping instead of propagating. -/
theorem claim_C8_permission_denial (flask : Bool) (check : CheckOutcome) (ab : AbortOutcome)
    (hdeny : check = CheckOutcome.denies ∨
      ∃ e, check = CheckOutcome.raises e ∧ permHandled e = true) :
    on_api_get_gate flask check ab ≠ ApiGetResult.payload ∧
    ((ab = AbortOutcome.aborts ∨
      (∃ e, ab = AbortOutcome.raises e ∧ abortHandled e = true) ∨ flask = false) →
      handle_permission_check flask check ab = HandlerOutcome.httpAbort403 ∨
      ∃ d, handle_permission_check flask check ab = HandlerOutcome.forbiddenMap d ∧
        dictGet d "error" = some (vStr "Forbidden")) ∧
    (∀ e, ab = AbortOutcome.raises e → abortHandled e = true →
      ∃ d, handle_permission_check flask check ab = HandlerOutcome.forbiddenMap d ∧
        dictGet d "error" = some (vStr "Forbidden")) :=
  permission_denial_body flask check ab hdeny

/-- C8 witness: a denying check with Flask present aborts with 403 and the
handler never reaches the payload; with a `RuntimeError` from `flask.abort`
the fallback forbidden mapping is returned. -/
theorem claim_C8_permission_denial_witness :
    handle_permission_check true CheckOutcome.denies AbortOutcome.aborts =
      HandlerOutcome.httpAbort403 ∧
    on_api_get_gate true CheckOutcome.denies AbortOutcome.aborts ≠ ApiGetResult.payload ∧
    handle_permission_check true CheckOutcome.denies
      (AbortOutcome.raises PyExc.runtimeError) =
      HandlerOutcome.forbiddenMap forbiddenFallback := by
  have h := claim_C8_permission_denial true CheckOutcome.denies AbortOutcome.aborts
    (Or.inl rfl)
  exact ⟨rfl, h.1, rfl⟩

/-- C9 (amended).  `_get_api_settings` returns a well-typed triple and clamps
at read time for every store whose accessors return a value or raise one of
the three *handled* classes (`AttributeError`, `TypeError`, `ValueError`):
`navbar_enabled` defaults to `True` on `None` or a handled exception,
`display_format` defaults to `"full"`, and `poll_interval_seconds` always
lies in `[1, 120]` — stored integers are clamped, missing (`None`) or
unparseable values become 5.  An accessor raising any *other* exception class
propagates (contrary to the claim's "a store whose accessor raises … it never
raises"). -/
theorem claim_C9_api_settings_amended (store : String → GetOutcome)
    (hs : ∀ k e, store k = GetOutcome.raises e → settingsHandled e = true) :
    ∃ nav fmt poll, get_api_settings store = .ok (nav, fmt, poll) ∧
      1 ≤ poll ∧ poll ≤ 120 ∧
      (store "navbar_enabled" = GetOutcome.val vNone → nav = true) ∧
      (∀ e, store "navbar_enabled" = GetOutcome.raises e → nav = true) ∧
      (store "display_format" = GetOutcome.val vNone → fmt = "full") ∧
      (store "poll_interval_seconds" = GetOutcome.val vNone → poll = 5) ∧
      (∀ s, store "poll_interval_seconds" = GetOutcome.val (vStr s) →
        pyIntOfStr s = .error PyExc.valueError → poll = 5) ∧
      (∀ i, store "poll_interval_seconds" = GetOutcome.val (vInt i) →
        poll = if i < 1 then 1 else if i > 120 then 120 else i) :=
  api_settings_body store hs

/-- C9 counterexample: a store whose accessor raises `KeyError` — an
exception class outside the handled `(AttributeError, TypeError,
ValueError)` tuple — makes `_get_api_settings` raise instead of returning a
defaulted triple, contradicting "including … a store whose accessor raises …
it never raises". -/
theorem claim_C9_api_settings_counterexample :
    get_api_settings (fun _ => GetOutcome.raises PyExc.keyError) =
      .error PyExc.keyError := rfl

/-- C9 witness: the amended theorem at a store returning `None` everywhere
yields the documented defaults. -/
theorem claim_C9_api_settings_witness :
    get_api_settings (fun _ => GetOutcome.val vNone) = .ok (true, "full", 5) := by
  obtain ⟨nav, fmt, poll, heq, _, _, hnav, _, hfmt, hpoll, _, _⟩ :=
    claim_C9_api_settings_amended (fun _ => GetOutcome.val vNone) (fun k e h => nomatch h)
  rw [hnav rfl, hfmt rfl, hpoll rfl] at heq
  exact heq

/-- C10 (confirmed).  In the tagged-resolver version, `_get_uptime_info`
reports the elapsed seconds exactly as the numeric conversion of the
resolution result — in particular `None` (not `0`) when resolution fails or
yields a non-numeric value — and the four formatted strings equal the
localized `"unknown"` placeholder if and only if the reported seconds value
is `None`; the handled-exception fallback branch obeys the same shape. -/
theorem claim_C10_uptime_info_unknown (res : PyVal) :
    (get_uptime_info res).1 = toFloatVal res ∧
    ((get_uptime_info res).1 = Option.none ↔
      (get_uptime_info res).2.1 = unknownText ∧
      (get_uptime_info res).2.2.1 = unknownText ∧
      (get_uptime_info res).2.2.2.1 = unknownText ∧
      (get_uptime_info res).2.2.2.2 = unknownText) ∧
    (res = vNone → (get_uptime_info res).1 = Option.none) ∧
    (uptime_info_fallback.1 = Option.none ∧
      uptime_info_fallback.2.1 = unknownText ∧
      uptime_info_fallback.2.2.1 = unknownText ∧
      uptime_info_fallback.2.2.2.1 = unknownText ∧
      uptime_info_fallback.2.2.2.2 = unknownText) :=
  uptime_info_body res

/-- C10 witness: a failed resolution (`None`) yields `None` seconds and the
`"unknown"` strings, a numeric resolution yields formatted strings. -/
theorem claim_C10_uptime_info_unknown_witness :
    (get_uptime_info vNone).1 = Option.none ∧
    (get_uptime_info vNone).2.1 = unknownText ∧
    (get_uptime_info (vFloat (PyFloat.ofInt 61))).2.1 = "1m 1s" := by
  have h := claim_C10_uptime_info_unknown vNone
  exact ⟨h.2.2.1 rfl, ((h.2.1).mp (h.2.2.1 rfl)).1, rfl⟩

end OctoPrintUptime

